import Mathlib

/-!
Verification of the Supabase data-access facade (`src/supabase.js`).

The module is shallowly embedded as follows:

* A database row (clinic or patient record) is an association list of
  string fields (`Row`); `rowGet` models JS property access (`undefined`
  when the field is missing).
* An argument that the JS code calls `.toUpperCase()` on is modelled as
  `JSStr := Option String`, where `none` stands for `null`/`undefined`;
  `jsToUpper` returns `Except Unit String`, throwing (as a JS `TypeError`)
  on `none`.
* The remote Supabase service is an oracle (`Backend`): a pair of response
  functions, one for queries ending in `.single()` (data is one row or
  null) and one for list queries (data is a row list or null).  A remote
  call either throws (`CallOutcome.throws`) or resolves to a
  `{ data, error }` pair (`CallOutcome.returns`).
* Each facade operation is a total Lean function from the module handle
  (`Option Backend`, `none` when bootstrap failed) and its arguments to a
  pair of its return value and the list of remote queries it issued, so
  that "issues no remote call" and "issues an identical query" are
  directly statable.  Totality of the Lean functions reflects the fact
  that every JS path is wrapped in `try/catch` and returns a value.
-/

set_option autoImplicit false

/-- Association-list representation of a JSON row. -/
abbrev Row := List (String × String)

/-- Property access `r.k`: the first binding of the field, `none` when absent
(JS `undefined`). -/
def rowGet (r : Row) (k : String) : Option String :=
  (r.find? (fun p => p.1 == k)).map (fun p => p.2)

/-- Coercion of a JS value used as an object index: `undefined` coerces to the
string `"undefined"`. -/
def jsIndexKey : Option String → String
  | none => "undefined"
  | some s => s

/-- Argument that may be `null`/`undefined` (`none`) or a string. -/
abbrev JSStr := Option String

/-- Upper-casing of a string, character by character (the effect of JS
`String.prototype.toUpperCase` on the code points this layer passes). -/
def jsUpperCase (s : String) : String := ⟨s.data.map Char.toUpper⟩

/-- Models `x.toUpperCase()`: throws a `TypeError` when `x` is
`null`/`undefined`, otherwise upper-cases the string. -/
def jsToUpper : JSStr → Except Unit String
  | none => Except.error ()
  | some s => Except.ok (jsUpperCase s)

/-- The remote query built by a facade operation before it is executed:
table, filter and payload exactly as passed to the supabase client. -/
inductive Query where
  | selectSingle (table : String) (eqKey : String) (eqVal : String)
  | selectAll (table : String)
  | selectMany (table : String) (eqKey : String) (eqVal : String)
  | insertSingle (table : String) (row : Row)
  | updateSingle (table : String) (updates : Row) (eqKey : String) (eqVal : String)
deriving DecidableEq, Repr

/-- Outcome of one awaited remote call: the promise rejects (`throws`) or
resolves to a `{ data, error }` object, where either member may be null. -/
inductive CallOutcome (α : Type) where
  | throws
  | returns (data : Option α) (error : Option String)
deriving DecidableEq, Repr

/-- A call outcome the error-translation policy treats as failed: the call
threw, or the resolved object carries a non-null `error`. -/
def CallOutcome.isFailure {α : Type} : CallOutcome α → Bool
  | .throws => true
  | .returns _ (some _) => true
  | .returns _ none => false

/-- The remote service, as the facade observes it: a response for every
single-row query and for every list query. -/
structure Backend where
  single : Query → CallOutcome Row
  many : Query → CallOutcome (List Row)

/-- JS `a || b` on strings: `b` when `a` is absent or empty (falsy). -/
def jsOr (a : Option String) (b : String) : String :=
  match a with
  | none => b
  | some s => if s = "" then b else s

/-- The hosting process's state at module load: the result of
`require("@supabase/supabase-js")` (`none` = MODULE_NOT_FOUND,
`some (.error ())` = located but `createClient` throws,
`some (.ok b)` = construction yields the client `b`) and the two
environment variables. -/
structure LoadEnv where
  supabaseJsModule : Option (Except Unit Backend)
  urlEnv : Option String
  keyEnv : Option String

/-- `const SUPABASE_URL = process.env.SUPABASE_URL || ""`. -/
def SUPABASE_URL (e : LoadEnv) : String := jsOr e.urlEnv ""

/-- `const SUPABASE_SERVICE_ROLE_KEY = process.env.SUPABASE_SERVICE_ROLE_KEY || ""`. -/
def SUPABASE_SERVICE_ROLE_KEY (e : LoadEnv) : String := jsOr e.keyEnv ""

/-- Module initialization (lines 3-38): `supabase` is non-null exactly when
the dependency was located, both credentials are non-empty, and
`createClient` did not throw. -/
def bootstrapSupabase (e : LoadEnv) : Option Backend :=
  let createClient := e.supabaseJsModule
  if createClient.isSome && SUPABASE_URL e != "" && SUPABASE_SERVICE_ROLE_KEY e != "" then
    match createClient with
    | some (Except.ok b) => some b
    | some (Except.error _) => none
    | none => none
  else
    none

/-- `isSupabaseAvailable()`: `supabase !== null`. -/
def isSupabaseAvailable (supabase : Option Backend) : Bool :=
  supabase.isSome

/-- `getClinicByCode(clinicCode)` (lines 46-63).  Returns the record or
null, paired with the remote queries issued. -/
def getClinicByCode (supabase : Option Backend) (clinicCode : JSStr) :
    Option Row × List Query :=
  if !isSupabaseAvailable supabase then (none, []) else
  match supabase with
  | none => (none, [])
  | some b =>
    match jsToUpper clinicCode with
    | Except.error _ => (none, [])
    | Except.ok code =>
      let q := Query.selectSingle "clinics" "clinic_code" code
      match b.single q with
      | CallOutcome.throws => (none, [q])
      | CallOutcome.returns data error =>
        match error with
        | some _ => (none, [q])
        | none => (data, [q])

/-- Key under which `getAllClinics` stores a returned row:
`clinic.clinic_code` used as an object index, with no normalization. -/
def clinicKey (r : Row) : String := jsIndexKey (rowGet r "clinic_code")

/-- JS object assignment `obj[k] = v`: replaces the value in place when the
key exists (keeping first-insertion order), otherwise appends. -/
def objInsert : List (String × Row) → String → Row → List (String × Row)
  | [], k, v => [(k, v)]
  | p :: rest, k, v => if p.1 = k then (k, v) :: rest else p :: objInsert rest k v

/-- The fold of lines 74-79: iterate the returned rows in order and insert
each under its own `clinic_code`. -/
def buildClinicsObj (rows : List Row) : List (String × Row) :=
  rows.foldl (fun acc clinic => objInsert acc (clinicKey clinic) clinic) []

/-- Property read `obj[k]` on the built object (keys are unique, so the
first binding is the binding). -/
def lookupObj : List (String × Row) → String → Option Row
  | [], _ => none
  | p :: rest, k => if p.1 = k then some p.2 else lookupObj rest k

/-- `getAllClinics()` (lines 65-85). -/
def getAllClinics (supabase : Option Backend) :
    List (String × Row) × List Query :=
  if !isSupabaseAvailable supabase then ([], []) else
  match supabase with
  | none => ([], [])
  | some b =>
    let q := Query.selectAll "clinics"
    match b.many q with
    | CallOutcome.throws => ([], [q])
    | CallOutcome.returns data error =>
      match error with
      | some _ => ([], [q])
      | none =>
        match data with
        | none => ([], [q])
        | some rows => (buildClinicsObj rows, [q])

/-- `createClinic(clinicData)` (lines 87-104). -/
def createClinic (supabase : Option Backend) (clinicData : Row) :
    Option Row × List Query :=
  if !isSupabaseAvailable supabase then (none, []) else
  match supabase with
  | none => (none, [])
  | some b =>
    let q := Query.insertSingle "clinics" clinicData
    match b.single q with
    | CallOutcome.throws => (none, [q])
    | CallOutcome.returns data error =>
      match error with
      | some _ => (none, [q])
      | none => (data, [q])

/-- `updateClinic(clinicCode, updates)` (lines 106-124). -/
def updateClinic (supabase : Option Backend) (clinicCode : JSStr) (updates : Row) :
    Option Row × List Query :=
  if !isSupabaseAvailable supabase then (none, []) else
  match supabase with
  | none => (none, [])
  | some b =>
    match jsToUpper clinicCode with
    | Except.error _ => (none, [])
    | Except.ok code =>
      let q := Query.updateSingle "clinics" updates "clinic_code" code
      match b.single q with
      | CallOutcome.throws => (none, [q])
      | CallOutcome.returns data error =>
        match error with
        | some _ => (none, [q])
        | none => (data, [q])

/-- `getPatientById(patientId)` (lines 127-144): matches on the id exactly
as supplied, no normalization. -/
def getPatientById (supabase : Option Backend) (patientId : String) :
    Option Row × List Query :=
  if !isSupabaseAvailable supabase then (none, []) else
  match supabase with
  | none => (none, [])
  | some b =>
    let q := Query.selectSingle "patients" "patient_id" patientId
    match b.single q with
    | CallOutcome.throws => (none, [q])
    | CallOutcome.returns data error =>
      match error with
      | some _ => (none, [q])
      | none => (data, [q])

/-- `getPatientsByClinicCode(clinicCode)` (lines 146-162): note the
`data || []` on success. -/
def getPatientsByClinicCode (supabase : Option Backend) (clinicCode : JSStr) :
    List Row × List Query :=
  if !isSupabaseAvailable supabase then ([], []) else
  match supabase with
  | none => ([], [])
  | some b =>
    match jsToUpper clinicCode with
    | Except.error _ => ([], [])
    | Except.ok code =>
      let q := Query.selectMany "patients" "clinic_code" code
      match b.many q with
      | CallOutcome.throws => ([], [q])
      | CallOutcome.returns data error =>
        match error with
        | some _ => ([], [q])
        | none =>
          match data with
          | none => ([], [q])
          | some rows => (rows, [q])

/-- `createPatient(patientData)` (lines 164-181). -/
def createPatient (supabase : Option Backend) (patientData : Row) :
    Option Row × List Query :=
  if !isSupabaseAvailable supabase then (none, []) else
  match supabase with
  | none => (none, [])
  | some b =>
    let q := Query.insertSingle "patients" patientData
    match b.single q with
    | CallOutcome.throws => (none, [q])
    | CallOutcome.returns data error =>
      match error with
      | some _ => (none, [q])
      | none => (data, [q])

/-- `updatePatient(patientId, updates)` (lines 183-201). -/
def updatePatient (supabase : Option Backend) (patientId : String) (updates : Row) :
    Option Row × List Query :=
  if !isSupabaseAvailable supabase then (none, []) else
  match supabase with
  | none => (none, [])
  | some b =>
    let q := Query.updateSingle "patients" updates "patient_id" patientId
    match b.single q with
    | CallOutcome.throws => (none, [q])
    | CallOutcome.returns data error =>
      match error with
      | some _ => (none, [q])
      | none => (data, [q])

/-- One call to the facade, with its arguments. -/
inductive OpCall where
  | getClinicByCode (code : JSStr)
  | getAllClinics
  | createClinic (d : Row)
  | updateClinic (code : JSStr) (u : Row)
  | getPatientById (id : String)
  | getPatientsByClinicCode (code : JSStr)
  | createPatient (d : Row)
  | updatePatient (id : String) (u : Row)

/-- The module's mutable state: the `supabase` binding (line 17), the only
module-level variable the operations can see. -/
structure ModuleState where
  supabase : Option Backend

/-- Executes one facade call against the module state.  No operation body
assigns to `supabase`, so the state after the call is the state before. -/
def runOp (st : ModuleState) : OpCall → ModuleState
  | OpCall.getClinicByCode c =>
    let _ := getClinicByCode st.supabase c; st
  | OpCall.getAllClinics =>
    let _ := getAllClinics st.supabase; st
  | OpCall.createClinic d =>
    let _ := createClinic st.supabase d; st
  | OpCall.updateClinic c u =>
    let _ := updateClinic st.supabase c u; st
  | OpCall.getPatientById i =>
    let _ := getPatientById st.supabase i; st
  | OpCall.getPatientsByClinicCode c =>
    let _ := getPatientsByClinicCode st.supabase c; st
  | OpCall.createPatient d =>
    let _ := createPatient st.supabase d; st
  | OpCall.updatePatient i u =>
    let _ := updatePatient st.supabase i u; st

/-- Executes a sequence of facade calls. -/
def runOps (st : ModuleState) (calls : List OpCall) : ModuleState :=
  calls.foldl runOp st

/-- The error-translation policy of every single-row operation:
`if (error) return null; return data`, and `catch { return null }`. -/
def singleData (o : CallOutcome Row) : Option Row :=
  match o with
  | CallOutcome.throws => none
  | CallOutcome.returns _ (some _) => none
  | CallOutcome.returns d none => d

/-- The error-translation policy of `getPatientsByClinicCode`:
errors, exceptions and null data all become `[]`; otherwise `data`. -/
def listData (o : CallOutcome (List Row)) : List Row :=
  match o with
  | CallOutcome.returns (some rows) none => rows
  | _ => []

/-- The error-translation policy of `getAllClinics`: errors, exceptions and
null data all become `{}`; otherwise the object built from the rows. -/
def objData (o : CallOutcome (List Row)) : List (String × Row) :=
  match o with
  | CallOutcome.returns (some rows) none => buildClinicsObj rows
  | _ => []

/-- Whether `createClient(...)` threw during module initialization. -/
def constructionThrew (e : LoadEnv) : Bool :=
  match e.supabaseJsModule with
  | some (Except.error _) => true
  | _ => false

/-- Clinic row with code `"A"`, first occurrence. -/
def rowA1 : Row := [("clinic_code", "A"), ("name", "first")]

/-- Clinic row with code `"B"`. -/
def rowB : Row := [("clinic_code", "B"), ("name", "second")]

/-- Clinic row with code `"A"`, last occurrence. -/
def rowA2 : Row := [("clinic_code", "A"), ("name", "third")]

/-- Clinic row whose stored code is lower-case. -/
def rowLa : Row := [("clinic_code", "a"), ("name", "lower")]

/-- A backend whose every call succeeds; the clinics table holds codes
`["A", "B", "A"]` in that order. -/
def okBackend : Backend where
  single := fun _ => CallOutcome.returns (some rowA1) none
  many := fun _ => CallOutcome.returns (some [rowA1, rowB, rowA2]) none

/-- A backend on which every single-row call throws and every list call
reports a backend error. -/
def failBackend : Backend where
  single := fun _ => CallOutcome.throws
  many := fun _ => CallOutcome.returns none (some "boom")

/-- A backend whose every call resolves with both non-null data and a
non-null error. -/
def errDataBackend : Backend where
  single := fun _ => CallOutcome.returns (some rowA1) (some "err")
  many := fun _ => CallOutcome.returns (some [rowA1]) (some "err")

/-- A backend whose clinics table holds one row with the lower-case code
`"a"`. -/
def lowercaseBackend : Backend where
  single := fun _ => CallOutcome.throws
  many := fun _ => CallOutcome.returns (some [rowLa]) none

/-! ## Helper lemmas -/

theorem singleData_of_failure (o : CallOutcome Row) (h : o.isFailure = true) :
    singleData o = none := by
  cases o with
  | throws => rfl
  | returns d e =>
    cases e with
    | none => simp [CallOutcome.isFailure] at h
    | some x => rfl

theorem listData_of_failure (o : CallOutcome (List Row)) (h : o.isFailure = true) :
    listData o = [] := by
  cases o with
  | throws => rfl
  | returns d e =>
    cases e with
    | none => simp [CallOutcome.isFailure] at h
    | some x => cases d <;> rfl

theorem objData_of_failure (o : CallOutcome (List Row)) (h : o.isFailure = true) :
    objData o = [] := by
  cases o with
  | throws => rfl
  | returns d e =>
    cases e with
    | none => simp [CallOutcome.isFailure] at h
    | some x => cases d <;> rfl

theorem getClinicByCode_eq (b : Backend) (s : String) :
    getClinicByCode (some b) (some s) =
      (singleData (b.single (Query.selectSingle "clinics" "clinic_code" (jsUpperCase s))),
       [Query.selectSingle "clinics" "clinic_code" (jsUpperCase s)]) := by
  cases h : b.single (Query.selectSingle "clinics" "clinic_code" (jsUpperCase s)) with
  | throws => simp [getClinicByCode, isSupabaseAvailable, jsToUpper, h, singleData]
  | returns d e =>
    cases e <;> simp [getClinicByCode, isSupabaseAvailable, jsToUpper, h, singleData]

theorem getAllClinics_eq (b : Backend) :
    getAllClinics (some b) =
      (objData (b.many (Query.selectAll "clinics")), [Query.selectAll "clinics"]) := by
  cases h : b.many (Query.selectAll "clinics") with
  | throws => simp [getAllClinics, isSupabaseAvailable, h, objData]
  | returns d e =>
    cases e <;> cases d <;> simp [getAllClinics, isSupabaseAvailable, h, objData]

theorem createClinic_eq (b : Backend) (d : Row) :
    createClinic (some b) d =
      (singleData (b.single (Query.insertSingle "clinics" d)),
       [Query.insertSingle "clinics" d]) := by
  cases h : b.single (Query.insertSingle "clinics" d) with
  | throws => simp [createClinic, isSupabaseAvailable, h, singleData]
  | returns dd e =>
    cases e <;> simp [createClinic, isSupabaseAvailable, h, singleData]

theorem updateClinic_eq (b : Backend) (s : String) (u : Row) :
    updateClinic (some b) (some s) u =
      (singleData (b.single (Query.updateSingle "clinics" u "clinic_code" (jsUpperCase s))),
       [Query.updateSingle "clinics" u "clinic_code" (jsUpperCase s)]) := by
  cases h : b.single (Query.updateSingle "clinics" u "clinic_code" (jsUpperCase s)) with
  | throws => simp [updateClinic, isSupabaseAvailable, jsToUpper, h, singleData]
  | returns dd e =>
    cases e <;> simp [updateClinic, isSupabaseAvailable, jsToUpper, h, singleData]

theorem getPatientById_eq (b : Backend) (pid : String) :
    getPatientById (some b) pid =
      (singleData (b.single (Query.selectSingle "patients" "patient_id" pid)),
       [Query.selectSingle "patients" "patient_id" pid]) := by
  cases h : b.single (Query.selectSingle "patients" "patient_id" pid) with
  | throws => simp [getPatientById, isSupabaseAvailable, h, singleData]
  | returns dd e =>
    cases e <;> simp [getPatientById, isSupabaseAvailable, h, singleData]

theorem getPatientsByClinicCode_eq (b : Backend) (s : String) :
    getPatientsByClinicCode (some b) (some s) =
      (listData (b.many (Query.selectMany "patients" "clinic_code" (jsUpperCase s))),
       [Query.selectMany "patients" "clinic_code" (jsUpperCase s)]) := by
  cases h : b.many (Query.selectMany "patients" "clinic_code" (jsUpperCase s)) with
  | throws => simp [getPatientsByClinicCode, isSupabaseAvailable, jsToUpper, h, listData]
  | returns d e =>
    cases e <;> cases d <;>
      simp [getPatientsByClinicCode, isSupabaseAvailable, jsToUpper, h, listData]

theorem createPatient_eq (b : Backend) (d : Row) :
    createPatient (some b) d =
      (singleData (b.single (Query.insertSingle "patients" d)),
       [Query.insertSingle "patients" d]) := by
  cases h : b.single (Query.insertSingle "patients" d) with
  | throws => simp [createPatient, isSupabaseAvailable, h, singleData]
  | returns dd e =>
    cases e <;> simp [createPatient, isSupabaseAvailable, h, singleData]

theorem updatePatient_eq (b : Backend) (pid : String) (u : Row) :
    updatePatient (some b) pid u =
      (singleData (b.single (Query.updateSingle "patients" u "patient_id" pid)),
       [Query.updateSingle "patients" u "patient_id" pid]) := by
  cases h : b.single (Query.updateSingle "patients" u "patient_id" pid) with
  | throws => simp [updatePatient, isSupabaseAvailable, h, singleData]
  | returns dd e =>
    cases e <;> simp [updatePatient, isSupabaseAvailable, h, singleData]

/-! ## Claims -/

/-- C2: For every operation of the facade, if `isAvailable()` is false (the
connection handle is null) then the operation returns its type's neutral
value (`null`, `[]`, or `{}`) immediately, without issuing any remote
call (the issued-query trace is empty). -/
theorem c2_unavailable_short_circuit (supabase : Option Backend)
    (h : isSupabaseAvailable supabase = false) :
    ∀ (code : JSStr) (d u : Row) (pid : String),
      getClinicByCode supabase code = (none, []) ∧
      getAllClinics supabase = ([], []) ∧
      createClinic supabase d = (none, []) ∧
      updateClinic supabase code u = (none, []) ∧
      getPatientById supabase pid = (none, []) ∧
      getPatientsByClinicCode supabase code = ([], []) ∧
      createPatient supabase d = (none, []) ∧
      updatePatient supabase pid u = (none, []) := by
  have hs : supabase = none := by
    cases supabase with
    | none => rfl
    | some b => simp [isSupabaseAvailable] at h
  subst hs
  intro code d u pid
  exact ⟨rfl, rfl, rfl, rfl, rfl, rfl, rfl, rfl⟩

/-- Witness for C2 at the concrete unavailable handle. -/
theorem c2_unavailable_short_circuit_witness :
    isSupabaseAvailable none = false ∧
    getAllClinics none = ([], []) ∧
    createPatient none [("patient_id", "p1")] = (none, []) ∧
    getPatientsByClinicCode none (some "ANY") = ([], []) :=
  ⟨rfl,
   (c2_unavailable_short_circuit none rfl (some "ANY") [("patient_id", "p1")] [] "p1").2.1,
   (c2_unavailable_short_circuit none rfl (some "ANY") [("patient_id", "p1")] [] "p1").2.2.2.2.2.2.1,
   (c2_unavailable_short_circuit none rfl (some "ANY") [("patient_id", "p1")] [] "p1").2.2.2.2.2.1⟩

/-- C5: `isAvailable()` is true iff module bootstrap succeeded, which
requires the client-construction dependency to be located, both
configuration strings to be non-empty, and construction not to throw;
an empty configuration string behaves like an absent one. -/
theorem c5_availability_iff_bootstrap (e : LoadEnv) :
    isSupabaseAvailable (bootstrapSupabase e) =
      (e.supabaseJsModule.isSome && SUPABASE_URL e != "" &&
        SUPABASE_SERVICE_ROLE_KEY e != "" && !constructionThrew e) ∧
    SUPABASE_URL ⟨e.supabaseJsModule, some "", e.keyEnv⟩ =
      SUPABASE_URL ⟨e.supabaseJsModule, none, e.keyEnv⟩ ∧
    SUPABASE_SERVICE_ROLE_KEY ⟨e.supabaseJsModule, e.urlEnv, some ""⟩ =
      SUPABASE_SERVICE_ROLE_KEY ⟨e.supabaseJsModule, e.urlEnv, none⟩ := by
  refine ⟨?_, rfl, rfl⟩
  cases hm : e.supabaseJsModule with
  | none => simp [bootstrapSupabase, isSupabaseAvailable, constructionThrew, hm]
  | some r =>
    cases r with
    | ok b =>
      by_cases hu : SUPABASE_URL e = "" <;> by_cases hk : SUPABASE_SERVICE_ROLE_KEY e = "" <;>
        simp [bootstrapSupabase, isSupabaseAvailable, constructionThrew, hm, hu, hk]
    | error x =>
      by_cases hu : SUPABASE_URL e = "" <;> by_cases hk : SUPABASE_SERVICE_ROLE_KEY e = "" <;>
        simp [bootstrapSupabase, isSupabaseAvailable, constructionThrew, hm, hu, hk]

/-- C6: two codes differing only in letter case make `getClinicByCode`
issue the identical remote query (matching on the uppercased code), so the
two calls return equal results against the same backend; `getPatientById`
matches on the id exactly as supplied. -/
theorem c6_case_insensitive_query (b : Backend) (s t : String)
    (h : jsUpperCase s = jsUpperCase t) :
    getClinicByCode (some b) (some s) = getClinicByCode (some b) (some t) ∧
    (getClinicByCode (some b) (some s)).2 =
      [Query.selectSingle "clinics" "clinic_code" (jsUpperCase s)] ∧
    ∀ pid : String, (getPatientById (some b) pid).2 =
      [Query.selectSingle "patients" "patient_id" pid] := by
  refine ⟨?_, ?_, ?_⟩
  · rw [getClinicByCode_eq, getClinicByCode_eq, h]
  · rw [getClinicByCode_eq]
  · intro pid; rw [getPatientById_eq]

/-- Witness for C6 at `"abc"` and `"ABC"`. -/
theorem c6_case_insensitive_query_witness :
    jsUpperCase "abc" = jsUpperCase "ABC" ∧
    getClinicByCode (some okBackend) (some "abc") =
      getClinicByCode (some okBackend) (some "ABC") :=
  ⟨by decide, (c6_case_insensitive_query okBackend "abc" "ABC" (by decide)).1⟩

/-- C8: the connection handle is fixed for the process lifetime: no
sequence of facade calls changes the module state, so `isAvailable()`
returns the same value on every call after load. -/
theorem c8_availability_immutable (st : ModuleState) (calls : List OpCall) :
    runOps st calls = st ∧
    isSupabaseAvailable (runOps st calls).supabase = isSupabaseAvailable st.supabase := by
  have h : ∀ (cs : List OpCall) (s : ModuleState), runOps s cs = s := by
    intro cs
    induction cs with
    | nil => intro s; rfl
    | cons c rest ih =>
      intro s
      have hc : runOp s c = s := by cases c <;> rfl
      show runOps (runOp s c) rest = s
      rw [hc]; exact ih s
  exact ⟨h calls st, by rw [h calls st]⟩

/-- C10: when the backend is available, a `null`/`undefined` code argument
makes `getClinicByCode`, `updateClinic` and `getPatientsByClinicCode`
return their neutral value (with no query issued) instead of throwing,
because `.toUpperCase()` is evaluated inside the operation's `try`
block. -/
theorem c10_null_code_safe (b : Backend) (u : Row) :
    isSupabaseAvailable (some b) = true ∧
    getClinicByCode (some b) none = (none, []) ∧
    updateClinic (some b) none u = (none, []) ∧
    getPatientsByClinicCode (some b) none = ([], []) :=
  ⟨rfl, rfl, rfl, rfl⟩

/-- C1: for every facade operation, when the remote call reports a backend
error or the call itself throws, the operation returns its documented
neutral value (`null` for single-record operations, `[]` for
getPatientsByClinicCode, `{}` for getAllClinics); being total functions,
the operations propagate no exception. -/
theorem c1_failure_returns_neutral (b : Backend)
    (hs : ∀ q, (b.single q).isFailure = true)
    (hm : ∀ q, (b.many q).isFailure = true) :
    ∀ (code : JSStr) (d u : Row) (pid : String),
      (getClinicByCode (some b) code).1 = none ∧
      (getAllClinics (some b)).1 = [] ∧
      (createClinic (some b) d).1 = none ∧
      (updateClinic (some b) code u).1 = none ∧
      (getPatientById (some b) pid).1 = none ∧
      (getPatientsByClinicCode (some b) code).1 = [] ∧
      (createPatient (some b) d).1 = none ∧
      (updatePatient (some b) pid u).1 = none := by
  intro code d u pid
  refine ⟨?_, ?_, ?_, ?_, ?_, ?_, ?_, ?_⟩
  · cases code with
    | none => rfl
    | some s => rw [getClinicByCode_eq]; exact singleData_of_failure _ (hs _)
  · rw [getAllClinics_eq]; exact objData_of_failure _ (hm _)
  · rw [createClinic_eq]; exact singleData_of_failure _ (hs _)
  · cases code with
    | none => rfl
    | some s => rw [updateClinic_eq]; exact singleData_of_failure _ (hs _)
  · rw [getPatientById_eq]; exact singleData_of_failure _ (hs _)
  · cases code with
    | none => rfl
    | some s => rw [getPatientsByClinicCode_eq]; exact listData_of_failure _ (hm _)
  · rw [createPatient_eq]; exact singleData_of_failure _ (hs _)
  · rw [updatePatient_eq]; exact singleData_of_failure _ (hs _)

/-- Witness for C1 at a backend whose every call fails. -/
theorem c1_failure_returns_neutral_witness :
    (∀ q, (failBackend.single q).isFailure = true) ∧
    (∀ q, (failBackend.many q).isFailure = true) ∧
    (getClinicByCode (some failBackend) (some "abc")).1 = none ∧
    (getAllClinics (some failBackend)).1 = [] :=
  ⟨fun _ => rfl, fun _ => rfl,
   (c1_failure_returns_neutral failBackend (fun _ => rfl) (fun _ => rfl)
     (some "abc") [] [] "p1").1,
   (c1_failure_returns_neutral failBackend (fun _ => rfl) (fun _ => rfl)
     (some "abc") [] [] "p1").2.1⟩

/-- C7: `getPatientsByClinicCode` always returns a sequence, never null:
`[]` when the backend is unavailable, when the remote call fails or
throws, and when the call succeeds with a null data field; on success it
returns the rows exactly as (and in the order) the backend returned
them. -/
theorem c7_patients_list_total (b : Backend) (s : String) :
    getPatientsByClinicCode none (some s) = ([], []) ∧
    (getPatientsByClinicCode (some b) (some s)).1 =
      listData (b.many (Query.selectMany "patients" "clinic_code" (jsUpperCase s))) ∧
    (∀ o : CallOutcome (List Row), o.isFailure = true → listData o = []) ∧
    listData (CallOutcome.returns none none) = [] ∧
    (∀ rows : List Row, listData (CallOutcome.returns (some rows) none) = rows) := by
  refine ⟨rfl, ?_, ?_, rfl, fun rows => rfl⟩
  · rw [getPatientsByClinicCode_eq]
  · exact fun o ho => listData_of_failure o ho

/-- Witness for C7: a failing outcome yields the empty sequence. -/
theorem c7_patients_list_total_witness :
    (CallOutcome.returns (none : Option (List Row)) (some "boom")).isFailure = true ∧
    listData (CallOutcome.returns (none : Option (List Row)) (some "boom")) = [] :=
  ⟨rfl, (c7_patients_list_total failBackend "Z").2.2.1 _ rfl⟩

/-- C9: a backend-reported error object takes precedence over returned
data: when every response carries both non-null data and a non-null
error, every operation still returns its neutral value, so a caller never
observes data from an errored call. -/
theorem c9_error_precedence (b : Backend)
    (hs : ∀ q, ∃ r e, b.single q = CallOutcome.returns (some r) (some e))
    (hm : ∀ q, ∃ rs e, b.many q = CallOutcome.returns (some rs) (some e)) :
    ∀ (s pid : String) (d u : Row),
      (getClinicByCode (some b) (some s)).1 = none ∧
      (getAllClinics (some b)).1 = [] ∧
      (createClinic (some b) d).1 = none ∧
      (updateClinic (some b) (some s) u).1 = none ∧
      (getPatientById (some b) pid).1 = none ∧
      (getPatientsByClinicCode (some b) (some s)).1 = [] ∧
      (createPatient (some b) d).1 = none ∧
      (updatePatient (some b) pid u).1 = none := by
  intro s pid d u
  have hsingle : ∀ q, singleData (b.single q) = none := by
    intro q
    obtain ⟨r, e, hq⟩ := hs q
    rw [hq]; rfl
  have hlist : ∀ q, listData (b.many q) = [] := by
    intro q
    obtain ⟨rs, e, hq⟩ := hm q
    rw [hq]; rfl
  have hobj : ∀ q, objData (b.many q) = [] := by
    intro q
    obtain ⟨rs, e, hq⟩ := hm q
    rw [hq]; rfl
  refine ⟨?_, ?_, ?_, ?_, ?_, ?_, ?_, ?_⟩
  · rw [getClinicByCode_eq]; exact hsingle _
  · rw [getAllClinics_eq]; exact hobj _
  · rw [createClinic_eq]; exact hsingle _
  · rw [updateClinic_eq]; exact hsingle _
  · rw [getPatientById_eq]; exact hsingle _
  · rw [getPatientsByClinicCode_eq]; exact hlist _
  · rw [createPatient_eq]; exact hsingle _
  · rw [updatePatient_eq]; exact hsingle _

/-- Witness for C9 at a backend returning both data and an error. -/
theorem c9_error_precedence_witness :
    (∃ r e, errDataBackend.single (Query.selectSingle "patients" "patient_id" "p1") =
      CallOutcome.returns (some r) (some e)) ∧
    (getPatientById (some errDataBackend) "p1").1 = none :=
  ⟨⟨rowA1, "err", rfl⟩,
   (c9_error_precedence errDataBackend (fun _ => ⟨rowA1, "err", rfl⟩)
     (fun _ => ⟨[rowA1], "err", rfl⟩) "A" "p1" [] []).2.2.2.2.1⟩

/-! ## Mapping lemmas for getAllClinics -/

theorem lookupObj_objInsert (m : List (String × Row)) (k : String) (v : Row) (k' : String) :
    lookupObj (objInsert m k v) k' = if k' = k then some v else lookupObj m k' := by
  induction m with
  | nil =>
    rcases eq_or_ne k' k with h | h
    · subst h; simp [objInsert, lookupObj]
    · simp [objInsert, lookupObj, h, Ne.symm h]
  | cons p rest ih =>
    by_cases hp : p.1 = k
    · rcases eq_or_ne k' k with h | h
      · subst h; simp [objInsert, lookupObj, hp]
      · simp [objInsert, lookupObj, hp, h, Ne.symm h]
    · simp only [objInsert, if_neg hp, lookupObj]
      rw [ih]
      rcases eq_or_ne k' k with h | h
      · subst h; simp [hp]
      · simp [h]

theorem mem_keys_objInsert (m : List (String × Row)) (k : String) (v : Row) (k' : String) :
    k' ∈ (objInsert m k v).map (fun p => p.1) ↔
      k' ∈ m.map (fun p => p.1) ∨ k' = k := by
  induction m with
  | nil => simp [objInsert]
  | cons p rest ih =>
    by_cases hp : p.1 = k
    · simp [objInsert, hp]
      tauto
    · simp [objInsert, hp, ih]
      tauto

theorem nodup_keys_objInsert (m : List (String × Row)) (k : String) (v : Row)
    (h : (m.map (fun p => p.1)).Nodup) :
    ((objInsert m k v).map (fun p => p.1)).Nodup := by
  induction m with
  | nil => simp [objInsert]
  | cons p rest ih =>
    simp only [List.map_cons, List.nodup_cons] at h
    by_cases hp : p.1 = k
    · simp only [objInsert, if_pos hp, List.map_cons, List.nodup_cons]
      exact ⟨hp ▸ h.1, h.2⟩
    · simp only [objInsert, if_neg hp, List.map_cons, List.nodup_cons]
      refine ⟨?_, ih h.2⟩
      intro hmem
      rcases (mem_keys_objInsert rest k v p.1).mp hmem with hm | hm
      · exact h.1 hm
      · exact hp hm

theorem getLast?_cons_elim {α : Type} (a : α) (l : List α) :
    (a :: l).getLast? = match l.getLast? with
      | some x => some x
      | none => some a := by
  induction l generalizing a with
  | nil => rfl
  | cons b t ih =>
    rw [List.getLast?_cons_cons, ih b]
    cases h : t.getLast? <;> simp [h]

theorem lookupObj_buildClinics_foldl (rows : List Row) (acc : List (String × Row))
    (k : String) :
    lookupObj (rows.foldl (fun a c => objInsert a (clinicKey c) c) acc) k =
      match (rows.filter (fun r => clinicKey r == k)).getLast? with
      | some r => some r
      | none => lookupObj acc k := by
  induction rows generalizing acc with
  | nil => rfl
  | cons r rest ih =>
    rw [List.foldl_cons]
    by_cases hr : clinicKey r = k
    · have hfil : List.filter (fun r => clinicKey r == k) (r :: rest) =
          r :: List.filter (fun r => clinicKey r == k) rest := by
        simp [List.filter_cons, hr]
      rw [hfil, getLast?_cons_elim, ih]
      cases h : (rest.filter (fun r => clinicKey r == k)).getLast? <;>
        simp [h, lookupObj_objInsert, hr]
    · have hfil : List.filter (fun r => clinicKey r == k) (r :: rest) =
          List.filter (fun r => clinicKey r == k) rest := by
        simp [List.filter_cons, hr]
      rw [hfil, ih]
      cases h : (rest.filter (fun r => clinicKey r == k)).getLast? <;>
        simp [h, lookupObj_objInsert, Ne.symm hr]

theorem mem_keys_buildClinics_foldl (rows : List Row) (acc : List (String × Row))
    (k : String) :
    k ∈ (rows.foldl (fun a c => objInsert a (clinicKey c) c) acc).map (fun p => p.1) ↔
      k ∈ acc.map (fun p => p.1) ∨ k ∈ rows.map clinicKey := by
  induction rows generalizing acc with
  | nil => simp
  | cons r rest ih =>
    rw [List.foldl_cons, ih]
    rw [mem_keys_objInsert]
    simp only [List.map_cons, List.mem_cons]
    tauto

theorem nodup_keys_buildClinics_foldl (rows : List Row) (acc : List (String × Row))
    (h : (acc.map (fun p => p.1)).Nodup) :
    ((rows.foldl (fun a c => objInsert a (clinicKey c) c) acc).map (fun p => p.1)).Nodup := by
  induction rows generalizing acc with
  | nil => exact h
  | cons r rest ih =>
    rw [List.foldl_cons]
    exact ih _ (nodup_keys_objInsert _ _ _ h)

theorem lookupObj_buildClinicsObj (rows : List Row) (k : String) :
    lookupObj (buildClinicsObj rows) k =
      (rows.filter (fun r => clinicKey r == k)).getLast? := by
  unfold buildClinicsObj
  rw [lookupObj_buildClinics_foldl]
  cases hg : (rows.filter (fun r => clinicKey r == k)).getLast? <;> simp [hg, lookupObj]

theorem mem_keys_buildClinicsObj (rows : List Row) (k : String) :
    k ∈ (buildClinicsObj rows).map (fun p => p.1) ↔ k ∈ rows.map clinicKey := by
  unfold buildClinicsObj
  rw [mem_keys_buildClinics_foldl]
  simp

theorem nodup_keys_buildClinicsObj (rows : List Row) :
    ((buildClinicsObj rows).map (fun p => p.1)).Nodup := by
  unfold buildClinicsObj
  exact nodup_keys_buildClinics_foldl rows [] (by simp)

/-- C3: a successful row list is folded into the mapping by iterating the
rows in input order and storing each under its own code, so duplicate
codes collapse to the last occurrence: looking up any key yields the last
matching row, the keys are pairwise distinct, and they are exactly the
codes of the rows (hence `["A", "B", "A"]` gives exactly 2 keys with
`"A"` holding the last such row). -/
theorem c3_getAllClinics_last_wins (b : Backend) (rows : List Row)
    (h : b.many (Query.selectAll "clinics") = CallOutcome.returns (some rows) none) :
    (getAllClinics (some b)).1 = buildClinicsObj rows ∧
    (∀ k, lookupObj (buildClinicsObj rows) k =
      (rows.filter (fun r => clinicKey r == k)).getLast?) ∧
    ((buildClinicsObj rows).map (fun p => p.1)).Nodup ∧
    (∀ k, k ∈ (buildClinicsObj rows).map (fun p => p.1) ↔ k ∈ rows.map clinicKey) := by
  refine ⟨?_, ?_, nodup_keys_buildClinicsObj rows, mem_keys_buildClinicsObj rows⟩
  · rw [getAllClinics_eq, h]; rfl
  · exact lookupObj_buildClinicsObj rows

/-- Witness for C3 at the backend with clinic codes `["A", "B", "A"]`. -/
theorem c3_getAllClinics_last_wins_witness :
    okBackend.many (Query.selectAll "clinics") =
      CallOutcome.returns (some [rowA1, rowB, rowA2]) none ∧
    lookupObj (buildClinicsObj [rowA1, rowB, rowA2]) "A" =
      ([rowA1, rowB, rowA2].filter (fun r => clinicKey r == "A")).getLast? ∧
    lookupObj (buildClinicsObj [rowA1, rowB, rowA2]) "A" = some rowA2 ∧
    (buildClinicsObj [rowA1, rowB, rowA2]).map (fun p => p.1) = ["A", "B"] :=
  ⟨rfl, (c3_getAllClinics_last_wins okBackend [rowA1, rowB, rowA2] rfl).2.1 "A",
   by decide, by decide⟩

/-- C4 fails on the code: `getAllClinics` stores each record under its
`clinic_code` exactly as returned, with no upper-casing, so a backend row
with the lower-case code `"a"` is stored under `"a"` and not under the
uppercase-normalized key `"A"`. -/
theorem c4_counterexample :
    (getAllClinics (some lowercaseBackend)).1.map (fun p => p.1) = ["a"] ∧
    jsUpperCase "a" = "A" ∧
    lookupObj (getAllClinics (some lowercaseBackend)).1 "A" = none ∧
    lookupObj (getAllClinics (some lowercaseBackend)).1 "a" = some rowLa := by
  exact ⟨by decide, by decide, by decide, by decide⟩

/-- C4 (amended): the query keys of `getClinicByCode`, `updateClinic` and
`getPatientsByClinicCode` are the uppercase-normalized form of the code,
but `getAllClinics` stores each returned record under its own
`clinic_code` exactly as returned — every stored key is one of the
returned codes, unnormalized. -/
theorem c4_query_keys_normalized (b : Backend) (s : String) (u : Row)
    (rows : List Row)
    (h : b.many (Query.selectAll "clinics") = CallOutcome.returns (some rows) none) :
    (getClinicByCode (some b) (some s)).2 =
      [Query.selectSingle "clinics" "clinic_code" (jsUpperCase s)] ∧
    (updateClinic (some b) (some s) u).2 =
      [Query.updateSingle "clinics" u "clinic_code" (jsUpperCase s)] ∧
    (getPatientsByClinicCode (some b) (some s)).2 =
      [Query.selectMany "patients" "clinic_code" (jsUpperCase s)] ∧
    ∀ k, k ∈ (getAllClinics (some b)).1.map (fun p => p.1) → k ∈ rows.map clinicKey := by
  refine ⟨?_, ?_, ?_, ?_⟩
  · rw [getClinicByCode_eq]
  · rw [updateClinic_eq]
  · rw [getPatientsByClinicCode_eq]
  · intro k hk
    rw [getAllClinics_eq, h] at hk
    exact (mem_keys_buildClinicsObj rows k).mp hk

/-- Witness for C4 (amended) at the lower-case backend. -/
theorem c4_query_keys_normalized_witness :
    lowercaseBackend.many (Query.selectAll "clinics") =
      CallOutcome.returns (some [rowLa]) none ∧
    (getClinicByCode (some lowercaseBackend) (some "abc")).2 =
      [Query.selectSingle "clinics" "clinic_code" (jsUpperCase "abc")] :=
  ⟨rfl, (c4_query_keys_normalized lowercaseBackend "abc" [] [rowLa] rfl).1⟩
